import Mathlib

/-!
Verification of `core/network_info.py` (raveberry).

The module renders the admin-only `/network_info` page. Its logic is:
two parsers of `ip` command output (`_get_default_device`,
`_ip_of_device`) and the orchestration method `index`, which shells out
to `iwgetid`, `ip route`, `ip -4 a`, and a privileged password helper,
builds two QR payloads, and assembles the template context.

We embed the parsers as pure functions on the command output strings,
and `index` as a pure function of an environment describing the external
world (admin flag, the output or failure of each external command, the
QR library as a string function).  `index` also returns the ordered list
of external invocations (process calls and QR encodings) so that claims
about side effects and their order can be stated.

Python string primitives (`str.split`, `str.strip`, `str.startswith`,
slicing) are modelled by structurally recursive functions on the
character list of the string, so that all definitions evaluate by kernel
reduction.
-/

/-- Python whitespace characters recognised by `str.split()` / `str.strip()`
(ASCII subset). -/
def pyIsSpace (c : Char) : Bool :=
  c = ' ' || c = '\t' || c = '\n' || c = '\r' || c = '\x0b' || c = '\x0c'

/-- Worker for `pySplit`: `acc` holds the characters of the current token
in reverse order. -/
def pySplitAux : List Char → List Char → List String
  | [], acc => if acc.isEmpty then [] else [String.mk acc.reverse]
  | c :: cs, acc =>
      if pyIsSpace c then
        if acc.isEmpty then pySplitAux cs []
        else String.mk acc.reverse :: pySplitAux cs []
      else pySplitAux cs (c :: acc)

/-- Python `str.split()` with no argument: split on runs of whitespace,
dropping empty tokens. -/
def pySplit (s : String) : List String :=
  pySplitAux s.toList []

/-- Worker for `pySplitOnChar`: `acc` holds the characters of the current
piece in reverse order. -/
def splitOnCharAux (sep : Char) : List Char → List Char → List String
  | [], acc => [String.mk acc.reverse]
  | c :: cs, acc =>
      if c = sep then String.mk acc.reverse :: splitOnCharAux sep cs []
      else splitOnCharAux sep cs (c :: acc)

/-- Python `str.split(sep)` for a one-character separator (the source
only splits on `"\n"` and `"/"`): empty pieces are kept, and splitting
the empty string yields `[""]`. -/
def pySplitOnChar (sep : Char) (s : String) : List String :=
  splitOnCharAux sep s.toList []

/-- Python `str.strip()`: remove leading and trailing whitespace. -/
def pyStrip (s : String) : String :=
  String.mk (((s.toList.dropWhile pyIsSpace).reverse.dropWhile pyIsSpace).reverse)

/-- Python `str.startswith(pre)`. -/
def pyStartswith (s pre : String) : Bool :=
  pre.toList.isPrefixOf s.toList

/-- Python slicing `s[:-1]`: all characters but the last (the empty
string stays empty). -/
def pyDropLastChar (s : String) : String :=
  String.mk s.toList.dropLast

/-- Python `str(x)` for `x : Optional[str]`: `None` prints as the literal
text `None`; this is what an f-string interpolates. -/
def pyStr : Option String → String
  | some s => s
  | none => "None"

/-- Outcome of one of the parsing helpers: a returned string, a raised
`ValueError` (with its message), or a raised `IndexError` (from an
out-of-range list subscript). -/
inductive PyResult where
  | ok (v : String)
  | valueError (msg : String)
  | indexError
deriving DecidableEq, Repr

/-- Body of the loop in `_get_default_device`:
`if cur == "dev": device = nex` (else keep the accumulator). -/
def devUpd (acc : Option String) (p : String × String) : Option String :=
  if p.1 = "dev" then some p.2 else acc

/-- The loop `for cur, nex in zip(words, words[1:])` of
`_get_default_device`, starting from accumulator `acc` (`device = None`
in the source). -/
def devFold (ws : List String) (acc : Option String) : Option String :=
  (ws.zip ws.tail).foldl devUpd acc

/-- `NetworkInfo._get_default_device`, as a function of the output of
`ip route show default`: tokenize on whitespace, remember the token
after each `dev`, raise `ValueError` when `not device` (no match, or an
empty candidate). -/
def get_default_device (output : String) : PyResult :=
  let words := pySplit output
  match devFold words none with
  | none => PyResult.valueError "No default device found"
  | some d =>
      if d = "" then PyResult.valueError "No default device found" else PyResult.ok d

/-- The line loop of `_ip_of_device`: strip each line, skip lines not
starting with `inet`; on the first matching line take `line.split()[1]`
(raising `IndexError` when absent), strip the `/`-suffix, `break`; after
the loop `if not ip: raise ValueError`. -/
def ipLoop (device : String) : List String → PyResult
  | [] => PyResult.valueError ("ip not found for " ++ device)
  | l :: rest =>
      let line := pyStrip l
      if pyStartswith line "inet" = false then ipLoop device rest
      else
        match (pySplit line)[1]? with
        | none => PyResult.indexError
        | some f =>
            let ip := (pySplitOnChar '/' f).headD ""
            if ip = "" then PyResult.valueError ("ip not found for " ++ device)
            else PyResult.ok ip

/-- `NetworkInfo._ip_of_device`, as a function of the device name and the
output of `ip -4 a show dev <device>`: split on newlines and run the
line loop. -/
def ip_of_device (device output : String) : PyResult :=
  ipLoop device (pySplitOnChar '\n' output)

/-- A Python exception escaping `index` uncaught. -/
inductive PyExc where
  | calledProcessError
  | valueError (msg : String)
  | indexError
deriving DecidableEq, Repr

/-- An external invocation made during `index`: one of the four
subprocess commands, or one QR-encoding library call (`_qr_path`) with
its text payload. -/
inductive Event where
  | iwgetid
  | ipRoute
  | ipAddr (device : String)
  | passwordForSsid (ssid : String)
  | qrEncode (payload : String)
deriving DecidableEq, Repr

/-- The template-context keys set by `index` (the base context is opaque
pass-through and not modelled). -/
structure Ctx where
  ssid : Option String
  password : Option String
  wifi_qr : Option String
  raveberry_url : String
  raveberry_qr : String
  ip : String
deriving DecidableEq, Repr

/-- Result of a request to `index`. -/
inductive IndexResult where
  | redirectLogin
  | rendered (ctx : Ctx)
  | failed (e : PyExc)
deriving DecidableEq, Repr

/-- The external world as `index` observes it: the admin flag of the
requesting user, and for each external command its output (`none` means
the command exited non-zero, i.e. `subprocess.check_output` raises
`CalledProcessError`).  `qrRender` is the out-of-scope QR library,
mapping a text payload to an SVG path fragment. -/
structure Env where
  isAdmin : Bool
  iwgetid : Option String
  route : Option String
  addr : String → Option String
  passwordFor : String → Option String
  qrRender : String → String

/-- `NetworkInfo.index`, returning the request result together with the
ordered list of external invocations it performed.  Mirrors the source:
admin check first; then `iwgetid --raw` with `CalledProcessError`
absorbed into `wifi_active = False` (on success the output loses its
last character, `[:-1]`); then `_get_default_device` and `_ip_of_device`
whose failures propagate; then, if Wi-Fi is active, the password helper
with `CalledProcessError` absorbed; then the Wi-Fi QR payload is encoded
unconditionally, followed by the URL payload; finally the context is
assembled, with `ssid`/`password`/`wifi_qr` set to `None` when Wi-Fi is
inactive. -/
def index (env : Env) : IndexResult × List Event :=
  if env.isAdmin = false then (IndexResult.redirectLogin, [])
  else
    let ssid : Option String := env.iwgetid.map pyDropLastChar
    match env.route with
    | none => (IndexResult.failed PyExc.calledProcessError, [Event.iwgetid, Event.ipRoute])
    | some routeOut =>
      match get_default_device routeOut with
      | PyResult.valueError m =>
          (IndexResult.failed (PyExc.valueError m), [Event.iwgetid, Event.ipRoute])
      | PyResult.indexError =>
          (IndexResult.failed PyExc.indexError, [Event.iwgetid, Event.ipRoute])
      | PyResult.ok device =>
        match env.addr device with
        | none =>
            (IndexResult.failed PyExc.calledProcessError,
             [Event.iwgetid, Event.ipRoute, Event.ipAddr device])
        | some addrOut =>
          match ip_of_device device addrOut with
          | PyResult.valueError m =>
              (IndexResult.failed (PyExc.valueError m),
               [Event.iwgetid, Event.ipRoute, Event.ipAddr device])
          | PyResult.indexError =>
              (IndexResult.failed PyExc.indexError,
               [Event.iwgetid, Event.ipRoute, Event.ipAddr device])
          | PyResult.ok ip =>
            match ssid with
            | some s =>
                let password := env.passwordFor s
                let wifiData := "WIFI:S:" ++ s ++ ";T:WPA;P:" ++ pyStr password ++ ";;"
                let wifi_qr := env.qrRender wifiData
                let raveberry_url := "http://" ++ ip ++ "/"
                let raveberry_qr := env.qrRender raveberry_url
                (IndexResult.rendered
                   { ssid := some s, password := password, wifi_qr := some wifi_qr,
                     raveberry_url := raveberry_url, raveberry_qr := raveberry_qr, ip := ip },
                 [Event.iwgetid, Event.ipRoute, Event.ipAddr device,
                  Event.passwordForSsid s, Event.qrEncode wifiData,
                  Event.qrEncode raveberry_url])
            | none =>
                let password : Option String := none
                let wifiData :=
                  "WIFI:S:" ++ pyStr none ++ ";T:WPA;P:" ++ pyStr password ++ ";;"
                let raveberry_url := "http://" ++ ip ++ "/"
                let raveberry_qr := env.qrRender raveberry_url
                (IndexResult.rendered
                   { ssid := none, password := none, wifi_qr := none,
                     raveberry_url := raveberry_url, raveberry_qr := raveberry_qr, ip := ip },
                 [Event.iwgetid, Event.ipRoute, Event.ipAddr device,
                  Event.qrEncode wifiData, Event.qrEncode raveberry_url])

/-! ### Helper lemmas about the tokenizer and the two parser loops -/

/-- Every token produced by `pySplitAux` is nonempty. -/
theorem pySplitAux_ne_empty (cs : List Char) :
    ∀ acc s, s ∈ pySplitAux cs acc → s ≠ "" := by
  induction cs with
  | nil =>
      intro acc s hs
      simp only [pySplitAux] at hs
      by_cases h : acc.isEmpty
      · simp [h] at hs
      · simp only [h, Bool.false_eq_true, if_false, List.mem_singleton] at hs
        subst hs
        intro hc
        have : acc.reverse = [] := by
          have := congrArg String.toList hc
          simpa using this
        rcases acc with _ | ⟨c, cs⟩
        · simp [List.isEmpty] at h
        · simp at this
  | cons c cs ih =>
      intro acc s hs
      simp only [pySplitAux] at hs
      by_cases hsp : pyIsSpace c
      · simp only [hsp, if_true] at hs
        by_cases h : acc.isEmpty
        · simp only [h, if_true] at hs
          exact ih [] s hs
        · simp only [h, Bool.false_eq_true, if_false, List.mem_cons] at hs
          rcases hs with hs | hs
          · subst hs
            intro hc
            have : acc.reverse = [] := by
              have := congrArg String.toList hc
              simpa using this
            rcases acc with _ | ⟨a, as⟩
            · simp [List.isEmpty] at h
            · simp at this
          · exact ih [] s hs
      · simp only [hsp, Bool.false_eq_true, if_false] at hs
        exact ih (c :: acc) s hs

/-- Every token of `pySplit` is nonempty. -/
theorem pySplit_ne_empty (output : String) : ∀ s ∈ pySplit output, s ≠ "" :=
  fun s hs => pySplitAux_ne_empty output.toList [] s hs

/-- One step of the `zip(words, words[1:])` fold. -/
theorem devFold_cons₂ (a b : String) (t : List String) (acc : Option String) :
    devFold (a :: b :: t) acc = devFold (b :: t) (devUpd acc (a, b)) := rfl

/-- If no token of `ws` other than possibly the last equals `dev`, the
loop leaves its accumulator unchanged. -/
theorem devFold_no_dev (ws : List String) (acc : Option String)
    (h : "dev" ∉ ws.dropLast) : devFold ws acc = acc := by
  induction ws generalizing acc with
  | nil => rfl
  | cons a t ih =>
      cases t with
      | nil => rfl
      | cons b t' =>
          rw [devFold_cons₂]
          have ha : a ≠ "dev" := by
            intro hc
            exact h (by rw [List.dropLast_cons₂, hc]; exact List.mem_cons_self _ _)
          have h' : "dev" ∉ (b :: t').dropLast := by
            intro hm
            exact h (by rw [List.dropLast_cons₂]; exact List.mem_cons_of_mem a hm)
          rw [ih _ h']
          simp only [devUpd, if_neg ha]

/-- If the candidate after a `dev` marker is not overwritten by a later
marker, the loop returns it, whatever the accumulator was before. -/
theorem devFold_last (pre : List String) (d : String) (post : List String)
    (acc : Option String) (h : "dev" ∉ (d :: post).dropLast) :
    devFold (pre ++ "dev" :: d :: post) acc = some d := by
  induction pre generalizing acc with
  | nil =>
      rw [List.nil_append, devFold_cons₂, devFold_no_dev _ _ h]
      simp [devUpd]
  | cons p pre' ih =>
      cases pre' with
      | nil =>
          rw [List.cons_append, List.nil_append, devFold_cons₂]
          exact ih _
      | cons q pre'' =>
          rw [List.cons_append, List.cons_append, devFold_cons₂]
          exact ih _

/-- Lines whose stripped form does not start with `inet` are skipped. -/
theorem ipLoop_skip (device : String) (pre rest : List String)
    (h : ∀ l ∈ pre, pyStartswith (pyStrip l) "inet" = false) :
    ipLoop device (pre ++ rest) = ipLoop device rest := by
  induction pre with
  | nil => rfl
  | cons l pre' ih =>
      rw [List.cons_append]
      have hl := h l (List.mem_cons_self l pre')
      simp only [ipLoop, hl, if_true]
      exact ih fun x hx => h x (List.mem_cons_of_mem l hx)

/-- If no line's stripped form starts with `inet`, the loop raises the
`ValueError`. -/
theorem ipLoop_all_skip (device : String) (lines : List String)
    (h : ∀ l ∈ lines, pyStartswith (pyStrip l) "inet" = false) :
    ipLoop device lines = PyResult.valueError ("ip not found for " ++ device) := by
  have := ipLoop_skip device lines [] h
  rw [List.append_nil] at this
  rw [this]
  rfl

/-- Unfolding of the loop at the first matching line. -/
theorem ipLoop_cons_match (device l : String) (rest : List String)
    (h : pyStartswith (pyStrip l) "inet" = true) :
    ipLoop device (l :: rest) =
      match (pySplit (pyStrip l))[1]? with
      | none => PyResult.indexError
      | some f =>
          if (pySplitOnChar '/' f).headD "" = "" then
            PyResult.valueError ("ip not found for " ++ device)
          else PyResult.ok ((pySplitOnChar '/' f).headD "") := by
  simp only [ipLoop, h, Bool.true_eq_false, if_false]

/-! ### Helper lemmas computing `index` on the two success paths -/

/-- `index` on the success path with Wi-Fi active. -/
theorem index_active (env : Env) (o routeOut dev addrOut ip : String)
    (hA : env.isAdmin = true) (hw : env.iwgetid = some o)
    (hr : env.route = some routeOut)
    (hd : get_default_device routeOut = PyResult.ok dev)
    (ha : env.addr dev = some addrOut)
    (hi : ip_of_device dev addrOut = PyResult.ok ip) :
    index env =
      (IndexResult.rendered
         { ssid := some (pyDropLastChar o),
           password := env.passwordFor (pyDropLastChar o),
           wifi_qr := some (env.qrRender
             ("WIFI:S:" ++ pyDropLastChar o ++ ";T:WPA;P:" ++
               pyStr (env.passwordFor (pyDropLastChar o)) ++ ";;")),
           raveberry_url := "http://" ++ ip ++ "/",
           raveberry_qr := env.qrRender ("http://" ++ ip ++ "/"),
           ip := ip },
       [Event.iwgetid, Event.ipRoute, Event.ipAddr dev,
        Event.passwordForSsid (pyDropLastChar o),
        Event.qrEncode ("WIFI:S:" ++ pyDropLastChar o ++ ";T:WPA;P:" ++
          pyStr (env.passwordFor (pyDropLastChar o)) ++ ";;"),
        Event.qrEncode ("http://" ++ ip ++ "/")]) := by
  simp [index, hA, hw, hr, hd, ha, hi]

/-- `index` on the success path with Wi-Fi inactive: the Wi-Fi QR
payload is still encoded, with the literal `None` texts. -/
theorem index_inactive (env : Env) (routeOut dev addrOut ip : String)
    (hA : env.isAdmin = true) (hw : env.iwgetid = none)
    (hr : env.route = some routeOut)
    (hd : get_default_device routeOut = PyResult.ok dev)
    (ha : env.addr dev = some addrOut)
    (hi : ip_of_device dev addrOut = PyResult.ok ip) :
    index env =
      (IndexResult.rendered
         { ssid := none, password := none, wifi_qr := none,
           raveberry_url := "http://" ++ ip ++ "/",
           raveberry_qr := env.qrRender ("http://" ++ ip ++ "/"),
           ip := ip },
       [Event.iwgetid, Event.ipRoute, Event.ipAddr dev,
        Event.qrEncode "WIFI:S:None;T:WPA;P:None;;",
        Event.qrEncode ("http://" ++ ip ++ "/")]) := by
  simp only [index, hA, hw, hr, hd, ha, hi, Option.map_none]
  rfl

/-- Reassociation of the Wi-Fi payload so that the password text merges
with the surrounding literals. -/
theorem wifi_payload_eq (s pw : String) :
    "WIFI:S:" ++ s ++ ";T:WPA;P:" ++ pw ++ ";;" =
      "WIFI:S:" ++ (s ++ (";T:WPA;P:" ++ (pw ++ ";;"))) := by
  simp [String.append_assoc]

/-! ### Claims -/

/-- C1. Default-device resolution tokenizes the route output on
whitespace and returns the token following the last `dev` token that has
a following token: whenever the token list decomposes as
`pre ++ ["dev", d] ++ post` such that no later `dev` is itself followed
by a token (i.e. `dev` does not occur in `(d :: post)` before its last
element), the result is `ok d` — the last match wins. -/
theorem get_default_device_last_match_wins (output : String)
    (pre : List String) (d : String) (post : List String)
    (hsplit : pySplit output = pre ++ "dev" :: d :: post)
    (hlast : "dev" ∉ (d :: post).dropLast) :
    get_default_device output = PyResult.ok d := by
  have hd : d ≠ "" := by
    refine pySplit_ne_empty output d ?_
    rw [hsplit]
    exact List.mem_append_right pre (List.mem_cons_of_mem _ (List.mem_cons_self d post))
  simp only [get_default_device]
  rw [hsplit, devFold_last pre d post none hlast]
  simp [hd]

/-- Witness for C1: route output mentioning `dev eth0` and later
`dev wlan0` resolves to `wlan0`. -/
theorem get_default_device_last_match_wins_witness :
    get_default_device "default via 10.0.0.1 dev eth0 metric 100 dev wlan0" =
      PyResult.ok "wlan0" :=
  get_default_device_last_match_wins _
    ["default", "via", "10.0.0.1", "dev", "eth0", "metric", "100"] "wlan0" []
    (by decide) (by decide)

/-- C2 counterexample. On the address output `"inet /24"` the first (and
only) line's trimmed form starts with `inet` and its second
whitespace-delimited field `"/24"` strips to the empty string; the claim
says this value is returned immediately, but the code raises
`ValueError` instead (`if not ip` treats the empty string as missing). -/
theorem ip_of_device_first_match_cex :
    ip_of_device "eth0" "inet /24" = PyResult.valueError "ip not found for eth0" ∧
      ip_of_device "eth0" "inet /24" ≠ PyResult.ok "" := by
  decide

/-- C2 (amended). IP resolution splits the output into lines, trims each
line, skips lines not starting with `inet`, and on the first matching
line takes the second whitespace-delimited field (raising an index error
when the line has no second field) and strips any `/`-suffix; a
non-empty result is returned immediately (first match wins, later lines
are ignored), while an empty result causes a not-found error. -/
theorem ip_of_device_first_match (device output : String)
    (pre : List String) (line : String) (post : List String)
    (hsplit : pySplitOnChar '\n' output = pre ++ line :: post)
    (hpre : ∀ l ∈ pre, pyStartswith (pyStrip l) "inet" = false)
    (hline : pyStartswith (pyStrip line) "inet" = true) :
    ip_of_device device output =
      match (pySplit (pyStrip line))[1]? with
      | none => PyResult.indexError
      | some f =>
          if (pySplitOnChar '/' f).headD "" = "" then
            PyResult.valueError ("ip not found for " ++ device)
          else PyResult.ok ((pySplitOnChar '/' f).headD "") := by
  simp only [ip_of_device]
  rw [hsplit, ipLoop_skip device pre (line :: post) hpre,
    ipLoop_cons_match device line post hline]

/-- Witness for C2: the spec's own example, `inet 192.168.1.5/24` among
other lines, resolves to `192.168.1.5` ignoring the later `inet` line. -/
theorem ip_of_device_first_match_witness :
    ip_of_device "eth0" "junk\n    inet 192.168.1.5/24 brd\n    inet 10.0.0.1/8" =
      PyResult.ok "192.168.1.5" := by
  rw [ip_of_device_first_match "eth0" _ ["junk"] "    inet 192.168.1.5/24 brd"
    ["    inet 10.0.0.1/8"] (by decide) (by decide) (by decide)]
  decide

/-- C3. Route output with no `dev` token makes default-device resolution
raise the not-found `ValueError`, and address output with no line whose
trimmed form begins with `inet` makes IP resolution raise the not-found
`ValueError`. -/
theorem no_match_not_found (routeOut addrOut device : String)
    (h₁ : "dev" ∉ pySplit routeOut)
    (h₂ : ∀ l ∈ pySplitOnChar '\n' addrOut, pyStartswith (pyStrip l) "inet" = false) :
    get_default_device routeOut = PyResult.valueError "No default device found" ∧
      ip_of_device device addrOut = PyResult.valueError ("ip not found for " ++ device) := by
  constructor
  · have : "dev" ∉ (pySplit routeOut).dropLast :=
      fun hm => h₁ (List.dropLast_subset _ hm)
    simp [get_default_device, devFold_no_dev _ none this]
  · exact ipLoop_all_skip device _ h₂

/-- Witness for C3: concrete route output without `dev` and address
output without `inet` lines both raise the not-found errors. -/
theorem no_match_not_found_witness :
    get_default_device "default via 10.0.0.1 proto dhcp" =
        PyResult.valueError "No default device found" ∧
      ip_of_device "eth0" "2: eth0: <BROADCAST,MULTICAST>\n    link/ether aa:bb" =
        PyResult.valueError ("ip not found for " ++ "eth0") :=
  no_match_not_found "default via 10.0.0.1 proto dhcp"
    "2: eth0: <BROADCAST,MULTICAST>\n    link/ether aa:bb" "eth0"
    (by decide) (by decide)

/-- C4. A request from a user without the admin capability is answered
with a redirect to the login route and triggers no external invocation
at all: neither a probe process nor a QR encoding. -/
theorem unauthorized_redirects_no_probe (env : Env) (h : env.isAdmin = false) :
    index env = (IndexResult.redirectLogin, []) := by
  simp [index, h]

/-- Witness for C4: a non-admin environment in which every probe would
succeed still yields only the redirect and the empty invocation list. -/
theorem unauthorized_redirects_no_probe_witness :
    index ⟨false, some "MyNet\n", some "default dev eth0",
           fun _ => some "inet 10.0.0.5/24", fun _ => some "pw", fun _ => "QR"⟩ =
      (IndexResult.redirectLogin, []) :=
  unauthorized_redirects_no_probe _ rfl

/-- C5. On a request whose network probes succeed, both soft failures
are absorbed without failing the request: a non-zero exit of the Wi-Fi
status command still renders the page, with `ssid` and `password` absent
from the context; a non-zero exit of the password helper still renders
the page, with the SSID present and `password` absent. -/
theorem soft_failures_absorbed (env : Env) (routeOut dev addrOut ip : String)
    (hA : env.isAdmin = true) (hr : env.route = some routeOut)
    (hd : get_default_device routeOut = PyResult.ok dev)
    (ha : env.addr dev = some addrOut)
    (hi : ip_of_device dev addrOut = PyResult.ok ip) :
    (env.iwgetid = none →
      ∃ c, (index env).1 = IndexResult.rendered c ∧ c.ssid = none ∧ c.password = none) ∧
    (∀ o, env.iwgetid = some o → env.passwordFor (pyDropLastChar o) = none →
      ∃ c, (index env).1 = IndexResult.rendered c ∧
        c.ssid = some (pyDropLastChar o) ∧ c.password = none) := by
  constructor
  · intro hw
    have h1 := index_inactive env routeOut dev addrOut ip hA hw hr hd ha hi
    exact ⟨_, congrArg Prod.fst h1, rfl, rfl⟩
  · intro o hw hp
    have h1 := index_active env o routeOut dev addrOut ip hA hw hr hd ha hi
    rw [hp] at h1
    exact ⟨_, congrArg Prod.fst h1, rfl, rfl⟩

/-- Witness for C5: one environment whose Wi-Fi status command fails and
one whose password helper fails, both rendering with the stated absent
fields. -/
theorem soft_failures_absorbed_witness :
    (∃ c, (index ⟨true, none, some "default dev eth0",
            fun _ => some "inet 10.0.0.5/24", fun _ => none, fun _ => "QR"⟩).1 =
          IndexResult.rendered c ∧ c.ssid = none ∧ c.password = none) ∧
    (∃ c, (index ⟨true, some "MyNet\n", some "default dev eth0",
            fun _ => some "inet 10.0.0.5/24", fun _ => none, fun _ => "QR"⟩).1 =
          IndexResult.rendered c ∧ c.ssid = some (pyDropLastChar "MyNet\n") ∧
          c.password = none) :=
  ⟨(soft_failures_absorbed _ "default dev eth0" "eth0" "inet 10.0.0.5/24" "10.0.0.5"
      rfl rfl (by decide) rfl (by decide)).1 rfl,
   (soft_failures_absorbed _ "default dev eth0" "eth0" "inet 10.0.0.5/24" "10.0.0.5"
      rfl rfl (by decide) rfl (by decide)).2 "MyNet\n" rfl rfl⟩

/-- C6 counterexample. In a run whose Wi-Fi status command exits
non-zero (environment with `iwgetid = none`), the QR encoder is still
invoked on the Wi-Fi payload (with the literal `None` texts): the
claim's "no QR encoding is performed for the Wi-Fi payload" is false. -/
theorem wifi_qr_encoded_when_inactive_cex :
    Event.qrEncode "WIFI:S:None;T:WPA;P:None;;" ∈
      (index ⟨true, none, some "default dev eth0",
        fun _ => some "inet 10.0.0.5/24", fun _ => none, fun _ => "QR"⟩).2 := by
  decide

/-- C6 (amended). When the Wi-Fi status command exits non-zero, the
rendered context has `ssid`, `password` and `wifi_qr` all set to `None`;
however the QR encoding of the Wi-Fi payload is still performed — with
the literal payload `WIFI:S:None;T:WPA;P:None;;` — and its result is
discarded. -/
theorem wifi_inactive_context_none (env : Env) (routeOut dev addrOut ip : String)
    (hA : env.isAdmin = true) (hw : env.iwgetid = none)
    (hr : env.route = some routeOut)
    (hd : get_default_device routeOut = PyResult.ok dev)
    (ha : env.addr dev = some addrOut)
    (hi : ip_of_device dev addrOut = PyResult.ok ip) :
    (∃ c, (index env).1 = IndexResult.rendered c ∧
      c.ssid = none ∧ c.password = none ∧ c.wifi_qr = none) ∧
    Event.qrEncode "WIFI:S:None;T:WPA;P:None;;" ∈ (index env).2 := by
  have h1 := index_inactive env routeOut dev addrOut ip hA hw hr hd ha hi
  constructor
  · exact ⟨_, congrArg Prod.fst h1, rfl, rfl, rfl⟩
  · rw [congrArg Prod.snd h1]
    simp

/-- Witness for C6 (amended): concrete inactive-Wi-Fi environment. -/
theorem wifi_inactive_context_none_witness :
    (∃ c, (index ⟨true, none, some "default dev eth0",
            fun _ => some "inet 10.0.0.5/24", fun _ => none, fun d => d⟩).1 =
          IndexResult.rendered c ∧
          c.ssid = none ∧ c.password = none ∧ c.wifi_qr = none) ∧
    Event.qrEncode "WIFI:S:None;T:WPA;P:None;;" ∈
      (index ⟨true, none, some "default dev eth0",
        fun _ => some "inet 10.0.0.5/24", fun _ => none, fun d => d⟩).2 :=
  wifi_inactive_context_none _ "default dev eth0" "eth0" "inet 10.0.0.5/24" "10.0.0.5"
    rfl rfl rfl (by decide) rfl (by decide)

/-- C7 counterexample. In a concrete authorized run with every command
succeeding, the Wi-Fi status command is invoked first (position 0 of the
trace) and the route command second (position 1): the network probe is
not performed before the Wi-Fi status probe as claimed. -/
theorem wifi_probe_precedes_network_cex :
    ((index ⟨true, some "MyNet\n", some "default dev eth0",
        fun _ => some "inet 10.0.0.5/24", fun _ => none, fun _ => "QR"⟩).2.indexOf
        Event.iwgetid = 0 ∧
      (index ⟨true, some "MyNet\n", some "default dev eth0",
        fun _ => some "inet 10.0.0.5/24", fun _ => none, fun _ => "QR"⟩).2.indexOf
        Event.ipRoute = 1) ∧
    ¬ (index ⟨true, some "MyNet\n", some "default dev eth0",
        fun _ => some "inet 10.0.0.5/24", fun _ => none, fun _ => "QR"⟩).2.indexOf
        Event.ipRoute <
      (index ⟨true, some "MyNet\n", some "default dev eth0",
        fun _ => some "inet 10.0.0.5/24", fun _ => none, fun _ => "QR"⟩).2.indexOf
        Event.iwgetid := by
  decide

/-- C7 (amended). On every authorized request the Wi-Fi status probe
runs first and the route command of the network probe second: the trace
always begins `iwgetid, ip route`.  (Only the password-helper part of
the Wi-Fi credential step runs after the network probe.) -/
theorem iwgetid_first_route_second (env : Env) (h : env.isAdmin = true) :
    (index env).2.take 2 = [Event.iwgetid, Event.ipRoute] := by
  simp only [index, h]
  rcases hr : env.route with _ | routeOut <;>
    simp only [hr, Bool.true_eq_false, if_false]
  · rfl
  · rcases hd : get_default_device routeOut with d | m <;> simp only []
    · rcases ha : env.addr d with _ | addrOut <;> simp only []
      · rfl
      · rcases hi : ip_of_device d addrOut with ipv | m <;> simp only []
        · rcases hw : env.iwgetid with _ | o <;> simp [hw]
        · rfl
        · rfl
    · rfl
    · rfl

/-- Witness for C7 (amended): the trace of a concrete authorized run
begins with `iwgetid` then `ip route`. -/
theorem iwgetid_first_route_second_witness :
    (index ⟨true, some "MyNet\n", some "default dev eth0",
        fun _ => some "inet 10.0.0.5/24", fun _ => none, fun _ => "QR"⟩).2.take 2 =
      [Event.iwgetid, Event.ipRoute] :=
  iwgetid_first_route_second _ rfl

/-- C8 counterexample. The SSID is `output[:-1]`, which removes the last
character whatever it is: on the zero-exit output `"MyNet"` (no trailing
newline) the recorded SSID is `"MyNe"`, not `"MyNet"` as the claim
("outputs without a trailing newline keep all their characters")
requires. -/
theorem ssid_not_newline_trim_cex :
    ((index ⟨true, some "MyNet", some "default dev eth0",
        fun _ => some "inet 10.0.0.5/24", fun _ => none, fun _ => "QR"⟩).1 =
      IndexResult.rendered
        ⟨some "MyNe", none, some "QR", "http://10.0.0.5/", "QR", "10.0.0.5"⟩) ∧
      ("MyNe" : String) ≠ "MyNet" := by
  decide

/-- C8 (amended). For every zero-exit output of the Wi-Fi status
command, the SSID recorded in the context is the output with its final
character removed (`[:-1]`); this equals trimming the trailing newline
exactly when the output ends in one, and an output without a trailing
newline loses its final character. -/
theorem ssid_drops_final_char (env : Env) (o routeOut dev addrOut ip : String)
    (hA : env.isAdmin = true) (hw : env.iwgetid = some o)
    (hr : env.route = some routeOut)
    (hd : get_default_device routeOut = PyResult.ok dev)
    (ha : env.addr dev = some addrOut)
    (hi : ip_of_device dev addrOut = PyResult.ok ip) :
    ∃ c, (index env).1 = IndexResult.rendered c ∧ c.ssid = some (pyDropLastChar o) := by
  have h1 := index_active env o routeOut dev addrOut ip hA hw hr hd ha hi
  exact ⟨_, congrArg Prod.fst h1, rfl⟩

/-- Witness for C8 (amended): the newline-terminated output `"MyNet\n"`
records SSID `"MyNet"`. -/
theorem ssid_drops_final_char_witness :
    ∃ c, (index ⟨true, some "MyNet\n", some "default dev eth0",
        fun _ => some "inet 10.0.0.5/24", fun _ => none, fun _ => "QR"⟩).1 =
      IndexResult.rendered c ∧ c.ssid = some "MyNet" :=
  ssid_drops_final_char _ "MyNet\n" "default dev eth0" "eth0" "inet 10.0.0.5/24"
    "10.0.0.5" rfl rfl rfl (by decide) rfl (by decide)

/-- C9. When Wi-Fi is active with SSID `s` (the `[:-1]`-truncated status
output) and the password helper exits non-zero, the text payload passed
to the Wi-Fi QR encoder is exactly `WIFI:S:` ++ s ++ `;T:WPA;P:None;;`:
the literal text `None` stands in for the unresolved password. -/
theorem wifi_payload_literal_none (env : Env) (o routeOut dev addrOut ip : String)
    (hA : env.isAdmin = true) (hw : env.iwgetid = some o)
    (hr : env.route = some routeOut)
    (hd : get_default_device routeOut = PyResult.ok dev)
    (ha : env.addr dev = some addrOut)
    (hi : ip_of_device dev addrOut = PyResult.ok ip)
    (hp : env.passwordFor (pyDropLastChar o) = none) :
    Event.qrEncode ("WIFI:S:" ++ pyDropLastChar o ++ ";T:WPA;P:None;;") ∈
      (index env).2 := by
  have h1 := index_active env o routeOut dev addrOut ip hA hw hr hd ha hi
  rw [hp] at h1
  rw [congrArg Prod.snd h1]
  have he : "WIFI:S:" ++ pyDropLastChar o ++ ";T:WPA;P:" ++ pyStr none ++ ";;" =
      "WIFI:S:" ++ pyDropLastChar o ++ ";T:WPA;P:None;;" := by
    simp only [String.append_assoc]
    rfl
  rw [he]
  simp

/-- Witness for C9: the spec's own example, SSID `MyNet` with a failing
password helper, produces the payload `WIFI:S:MyNet;T:WPA;P:None;;`. -/
theorem wifi_payload_literal_none_witness :
    Event.qrEncode "WIFI:S:MyNet;T:WPA;P:None;;" ∈
      (index ⟨true, some "MyNet\n", some "default dev eth0",
        fun _ => some "inet 10.0.0.5/24", fun _ => none, fun _ => "QR"⟩).2 :=
  wifi_payload_literal_none _ "MyNet\n" "default dev eth0" "eth0" "inet 10.0.0.5/24"
    "10.0.0.5" rfl rfl rfl (by decide) rfl (by decide) rfl

/-- C10. When the password helper succeeds its output is used verbatim —
unlike the SSID it is not trimmed: the context's `password` is exactly
the helper output `p`, and the Wi-Fi QR payload contains `p` unchanged
between `P:` and `;;` (so a trailing newline in `p` ends up in both). -/
theorem password_used_verbatim (env : Env) (o p routeOut dev addrOut ip : String)
    (hA : env.isAdmin = true) (hw : env.iwgetid = some o)
    (hr : env.route = some routeOut)
    (hd : get_default_device routeOut = PyResult.ok dev)
    (ha : env.addr dev = some addrOut)
    (hi : ip_of_device dev addrOut = PyResult.ok ip)
    (hp : env.passwordFor (pyDropLastChar o) = some p) :
    ∃ c, (index env).1 = IndexResult.rendered c ∧ c.password = some p ∧
      Event.qrEncode ("WIFI:S:" ++ pyDropLastChar o ++ ";T:WPA;P:" ++ p ++ ";;") ∈
        (index env).2 := by
  have h1 := index_active env o routeOut dev addrOut ip hA hw hr hd ha hi
  rw [hp] at h1
  refine ⟨_, congrArg Prod.fst h1, rfl, ?_⟩
  rw [congrArg Prod.snd h1]
  simp [pyStr]

/-- Witness for C10: a helper output ending in a newline puts that
newline into the context password and into the QR payload between `P:`
and `;;`. -/
theorem password_used_verbatim_witness :
    ∃ c, (index ⟨true, some "MyNet\n", some "default dev eth0",
        fun _ => some "inet 10.0.0.5/24", fun _ => some "secret\n", fun _ => "QR"⟩).1 =
      IndexResult.rendered c ∧ c.password = some "secret\n" ∧
      Event.qrEncode "WIFI:S:MyNet;T:WPA;P:secret\n;;" ∈
        (index ⟨true, some "MyNet\n", some "default dev eth0",
          fun _ => some "inet 10.0.0.5/24", fun _ => some "secret\n", fun _ => "QR"⟩).2 :=
  password_used_verbatim _ "MyNet\n" "secret\n" "default dev eth0" "eth0"
    "inet 10.0.0.5/24" "10.0.0.5" rfl rfl rfl (by decide) rfl (by decide) rfl
